import Mathlib

/-!
Verification of the credential-authentication subsystem of
`modulo-login-nestjs` (NestJS + Prisma + argon2id).

The TypeScript source is shallowly embedded:
* database rows (`users`, `user_security`, `roles`, `_UserRoles`) become
  structures, and the whole database becomes a `Store`;
* Prisma queries (`findUnique` with `include`, `count`, nested `create`
  inside `$transaction`) become pure functions on `Store`;
* external calls whose behaviour is not part of this repository
  (argon2 `hash`/`verify`, `jwtService.sign`, the database's answer to a
  racing transaction) are parameters or explicit oracle inputs;
* thrown Nest exceptions become `Except` error values carrying the
  exact message strings of the source.
-/

/-! ## Character classes of the password regular expression

`register.dto.ts` validates passwords with
`/((?=.*\d)|(?=.*\W+))(?![.\n])(?=.*[A-Z])(?=.*[a-z]).*$/`
(JavaScript semantics, no flags): the pattern may match starting at any
index, `.` refuses line terminators, `\W` is the complement of
`[A-Za-z0-9_]`, `$` matches only at the very end of the input, and
`(?![.\n])` refuses a literal dot or a newline at the match start.
-/

def digitChar (c : Char) : Bool := '0' ≤ c && c ≤ '9'

def upperChar (c : Char) : Bool := 'A' ≤ c && c ≤ 'Z'

def lowerChar (c : Char) : Bool := 'a' ≤ c && c ≤ 'z'

def wordChar (c : Char) : Bool :=
  upperChar c || lowerChar c || digitChar c || c == '_'

/-- JavaScript line terminators, which `.` never matches. -/
def lineTerm (c : Char) : Bool :=
  c == '\n' || c == '\r' || c == (Char.ofNat 0x2028) || c == (Char.ofNat 0x2029)

/-- A lookahead of the form `(?=.*X)` evaluated on a suffix: a character
satisfying `X` occurs at or after the current position, with `.*` unable to
cross a line terminator on the way there. -/
def lookaheadDotStar (p : Char → Bool) : List Char → Bool
  | [] => false
  | c :: cs => p c || (!lineTerm c && lookaheadDotStar p cs)

/-- Lookahead `(?=.*\d)` evaluated on a suffix. -/
def seesDigit : List Char → Bool := lookaheadDotStar digitChar

/-- Lookahead `(?=.*\W+)` evaluated on a suffix (one `\W` is as good as
many for a lookahead). -/
def seesNonWord : List Char → Bool := lookaheadDotStar (fun c => !wordChar c)

/-- Lookahead `(?=.*[A-Z])` evaluated on a suffix. -/
def seesUpper : List Char → Bool := lookaheadDotStar upperChar

/-- Lookahead `(?=.*[a-z])` evaluated on a suffix. -/
def seesLower : List Char → Bool := lookaheadDotStar lowerChar

/-- Trailing `.*$` evaluated on a suffix: `.` cannot cross a line
terminator and `$` (no `m` flag) matches only at the end of input, so the
remaining characters must all be ordinary. -/
def dollarTail : List Char → Bool
  | [] => true
  | c :: cs => !lineTerm c && dollarTail cs

/-- Negative lookahead `(?![.\n])` evaluated on a suffix. -/
def notDotNl : List Char → Bool
  | [] => true
  | c :: _ => c != '.' && c != '\n'

/-- The whole pattern anchored at the current position. -/
def matchAt (t : List Char) : Bool :=
  (seesDigit t || seesNonWord t) && notDotNl t && seesUpper t && seesLower t
    && dollarTail t

/-- `RegExp.prototype.test`: try the pattern at every start position. -/
def regexSearch : List Char → Bool
  | [] => matchAt []
  | c :: cs => matchAt (c :: cs) || regexSearch cs

/-- The `password` field checks of `RegisterDto`: `@MinLength(8)`,
`@MaxLength(64)`, `@Matches(PASSWORD_REGEX)`. -/
def registerPasswordOk (s : String) : Bool :=
  8 ≤ s.length && s.length ≤ 64 && regexSearch s.data

/-- The strength policy exactly as the specification words it: length 8–64,
an uppercase letter, a lowercase letter, and a digit or a non-alphanumeric
symbol. -/
def specStrengthPolicy (s : String) : Bool :=
  8 ≤ s.length && s.length ≤ 64 && s.data.any upperChar && s.data.any lowerChar
    && (s.data.any digitChar || s.data.any (fun c => !(upperChar c || lowerChar c || digitChar c)))

/-- Declarative reading of the regex's character requirements on one
suffix: a digit or non-word character, an uppercase letter, and a
lowercase letter all occur in it. -/
def suffixHasAll (t : List Char) : Bool :=
  t.any (fun c => digitChar c || !wordChar c) && t.any upperChar && t.any lowerChar

/-! ## Data model

Rows of the final migrated schema: `users`, `user_security`, `roles` and
the `_UserRoles` join table. Timestamps are abstract `Nat`s, identifiers
and hashes are `String`s. -/

structure UserRow where
  id : String
  email : String
  emailVerified : Option Nat
  firstName : Option String
  lastName : Option String
  picture : Option String
  isActive : Bool
  deletedAt : Option Nat
  lastLogin : Option Nat
  createdAt : Nat
  updatedAt : Nat
  deriving DecidableEq, Repr

structure SecurityRow where
  id : String
  userId : String
  twoFactorSecret : Option String
  twoFactorEnabled : Bool
  twoFactorRecoveryCodes : List String
  password : Option String
  passwordChangedAt : Option Nat
  updatedAt : Nat
  deriving DecidableEq, Repr

structure RoleRow where
  id : String
  name : String
  description : Option String
  deriving DecidableEq, Repr

/-- The relational store reached through Prisma. -/
structure Store where
  users : List UserRow
  securities : List SecurityRow
  roleRows : List RoleRow
  /-- `_UserRoles` edges as (user id, role id) pairs. -/
  userRoles : List (String × String)
  deriving DecidableEq, Repr

/-- A hydrated query result: the row's own columns plus the relations an
`include` clause asked for.  A relation that was not included is `none` /
`[]`, exactly as the property is absent from the JavaScript object. -/
structure UserView where
  id : String
  email : String
  emailVerified : Option Nat
  firstName : Option String
  lastName : Option String
  picture : Option String
  isActive : Bool
  deletedAt : Option Nat
  lastLogin : Option Nat
  createdAt : Nat
  updatedAt : Nat
  security : Option SecurityRow
  roles : List RoleRow
  deriving DecidableEq, Repr

/-- Roles attached to a user through `_UserRoles`. -/
def rolesOf (st : Store) (userId : String) : List RoleRow :=
  st.roleRows.filter (fun r => st.userRoles.contains (userId, r.id))

/-- Build the object returned by `prisma.user.findUnique` for a given row
and `include` clause. -/
def hydrate (st : Store) (row : UserRow) (includeSecurity includeRoles : Bool) :
    UserView :=
  { id := row.id
    email := row.email
    emailVerified := row.emailVerified
    firstName := row.firstName
    lastName := row.lastName
    picture := row.picture
    isActive := row.isActive
    deletedAt := row.deletedAt
    lastLogin := row.lastLogin
    createdAt := row.createdAt
    updatedAt := row.updatedAt
    security := if includeSecurity then st.securities.find? (fun s => s.userId == row.id) else none
    roles := if includeRoles then rolesOf st row.id else [] }

/-- `prisma.user.findUnique({ where: { email }, include: ... })`. -/
def findUserByEmail (st : Store) (email : String)
    (includeSecurity includeRoles : Bool) : Option UserView :=
  match st.users.find? (fun u => u.email == email) with
  | none => none
  | some row => some (hydrate st row includeSecurity includeRoles)

/-- `prisma.user.findUnique({ where: { id }, include: ... })`. -/
def findUserById (st : Store) (id : String)
    (includeSecurity includeRoles : Bool) : Option UserView :=
  match st.users.find? (fun u => u.id == id) with
  | none => none
  | some row => some (hydrate st row includeSecurity includeRoles)

/-! ## AuthService: validateUser and login -/

/-- The strict payload contract built in `login` (step 3 of the source):
`{ sub: user.id, email: user.email, roles: userRoles }` where `userRoles`
is the array of role *names*. -/
structure JwtPayload where
  sub : String
  email : String
  roles : List String
  deriving DecidableEq, Repr

structure AuthResponse where
  accessToken : String
  user : UserView
  deriving DecidableEq, Repr

inductive LoginError where
  | unauthorized (msg : String)
  deriving DecidableEq, Repr

/-- The sanitization at the end of `validateUser`: clone the object and
`delete` its `security` property. -/
def sanitizeUser (u : UserView) : UserView := { u with security := none }

/-- `validateUser`, instrumented: the second component counts how many
times `argon2.verify` ran.  The control flow is the source's:

* `findUnique` including `security` and `roles`;
* `if (!userWithRelations) return null`;
* `if (!userWithRelations.isActive) return null`;
* `if (!userWithRelations.security || !userWithRelations.security.password)
  return null` (JavaScript falsiness: a `null` record, a `null` hash or an
  empty-string hash all fail this test);
* `argon2.verify(...)`; on mismatch `return null`;
* otherwise return the cloned object with `security` deleted.

`verify hash pass pepper` abstracts `argon2.verify` with the process-wide
pepper as `secret`. -/
def validateUserT (verify : String → String → String → Bool) (pepper : String)
    (st : Store) (email pass : String) : Option UserView × Nat :=
  match findUserByEmail st email true true with
  | none => (none, 0)
  | some u =>
    if !u.isActive then (none, 0)
    else
      match u.security with
      | none => (none, 0)
      | some sec =>
        match sec.password with
        | none => (none, 0)
        | some hash =>
          if hash == "" then (none, 0)
          else if verify hash pass pepper then (some (sanitizeUser u), 1)
          else (none, 1)

/-- `validateUser` as the caller sees it. -/
def validateUser (verify : String → String → String → Bool) (pepper : String)
    (st : Store) (email pass : String) : Option UserView :=
  (validateUserT verify pepper st email pass).1

/-- `login`: validate, throw `UnauthorizedException('Credenciales inválidas')`
on `null`, otherwise build the payload and sign it.  `sign` abstracts
`jwtService.sign`. -/
def login (verify : String → String → String → Bool) (pepper : String)
    (sign : JwtPayload → String) (st : Store) (email pass : String) :
    Except LoginError AuthResponse :=
  match validateUser verify pepper st email pass with
  | none => .error (.unauthorized "Credenciales inválidas")
  | some user =>
    let userRoles := user.roles.map RoleRow.name
    let payload : JwtPayload := { sub := user.id, email := user.email, roles := userRoles }
    .ok { accessToken := sign payload, user := user }

/-- `login` with the store threaded through, to talk about its (absence of)
writes: every database access inside `login` is a read. -/
def loginS (verify : String → String → String → Bool) (pepper : String)
    (sign : JwtPayload → String) (st : Store) (email pass : String) :
    Store × Except LoginError AuthResponse :=
  (st, login verify pepper sign st email pass)

/-! ## UserService -/

inductive UserSvcError where
  | notFound (msg : String)
  | internal (msg : String)
  deriving DecidableEq, Repr

/-- `findOneById`: `findUnique` including only `roles`; `NotFoundException`
when absent. -/
def findOneById (st : Store) (id : String) : Except UserSvcError UserView :=
  match findUserById st id false true with
  | none => .error (.notFound ("Usuario con ID " ++ id ++ " no encontrado"))
  | some u => .ok u

/-- `findOneByEmail`: `findUnique` including only `roles`. -/
def findOneByEmail (st : Store) (email : String) : Except UserSvcError UserView :=
  match findUserByEmail st email false true with
  | none => .error (.notFound ("Usuario con email " ++ email ++ " no encontrado"))
  | some u => .ok u

/-- `exists`: `prisma.user.count({ where: { email } }) > 0`. -/
def userExists (st : Store) (email : String) : Bool :=
  0 < (st.users.filter (fun u => u.email == email)).length

/-- `UpdateUserDto`: a partial of `CreateUserDto` without `email`; the
fields Prisma would write on `users` are the profile columns. -/
structure UpdateUserDto where
  firstName : Option String
  lastName : Option String
  picture : Option String
  deriving DecidableEq, Repr

/-- Apply `prisma.user.update({ where: { id }, data: dto })` to one row:
provided fields overwrite the columns, `@updatedAt` is bumped. -/
def applyUpdate (dto : UpdateUserDto) (now : Nat) (row : UserRow) : UserRow :=
  { row with
    firstName := dto.firstName.orElse (fun _ => row.firstName)
    lastName := dto.lastName.orElse (fun _ => row.lastName)
    picture := dto.picture.orElse (fun _ => row.picture)
    updatedAt := now }

/-- `updateProfile`: the only write path of `UserService`; P2025 (row
absent) becomes `NotFoundException`. -/
def updateProfile (st : Store) (id : String) (dto : UpdateUserDto) (now : Nat) :
    Store × Except UserSvcError UserView :=
  match st.users.find? (fun u => u.id == id) with
  | none => (st, .error (.notFound "Usuario no existe"))
  | some row =>
    let row2 := applyUpdate dto now row
    let st2 : Store :=
      { st with users := st.users.map (fun u => if u.id == id then applyUpdate dto now u else u) }
    (st2, .ok (hydrate st2 row2 false false))

/-! ## AuthService: register -/

/-- `String.prototype.includes`, via an explicit substring scan. -/
def strStartsWith : List Char → List Char → Bool
  | _, [] => true
  | [], _ :: _ => false
  | c :: cs, d :: ds => c == d && strStartsWith cs ds

def strHasSub : List Char → List Char → Bool
  | [], sub => sub.isEmpty
  | c :: cs, sub => strStartsWith (c :: cs) sub || strHasSub cs sub

def jsIncludes (s sub : String) : Bool := strHasSub s.data sub.data

/-- What `argon2.hash` rejected with: either an `Error` instance carrying a
message, or an arbitrary non-`Error` value. -/
structure HashFailure where
  isErrorInstance : Bool
  message : String
  deriving DecidableEq, Repr

/-- A storage-layer fault: a `PrismaClientKnownRequestError` with its
`code` and `meta.target`, or any other thrown value. -/
inductive PrismaError where
  | known (code : String) (target : Option (List String))
  | other
  deriving DecidableEq, Repr

inductive RegError where
  | conflict (msg : String)
  | internal (msg : String)
  deriving DecidableEq, Repr

def emailTakenMsg : String := "El correo electrónico ya está registrado."

def overloadedMsg : String :=
  "El servidor está temporalmente sobrecargado. Intente más tarde."

def hashGenericMsg : String :=
  "Error interno de seguridad al procesar credenciales."

def rolesConfigMsg : String := "Error de configuración del sistema (Roles)."

def registerFallbackMsg : String :=
  "No se pudo completar el registro. Intente nuevamente."

/-- The `catch` around `argon2.hash`: an `Error` whose message contains
`"memory"` or `"allocation"` is surfaced as the overload error; every other
failure falls through to the generic security error. -/
def classifyHashFailure (f : HashFailure) : RegError :=
  if f.isErrorInstance && (jsIncludes f.message "memory" || jsIncludes f.message "allocation") then
    .internal overloadedMsg
  else
    .internal hashGenericMsg

/-- The `catch` around the provisioning transaction: `P2002` whose
`meta.target` includes `email` becomes the duplicate conflict; `P2002`
otherwise falls through; `P2025` becomes the configuration fault; anything
else hits the catch-all. -/
def translatePrismaError (e : PrismaError) : RegError :=
  match e with
  | .known code target =>
    if code == "P2002" then
      match target with
      | some ts =>
        if ts.contains "email" then .conflict emailTakenMsg
        else .internal registerFallbackMsg
      | none => .internal registerFallbackMsg
    else if code == "P2025" then .internal rolesConfigMsg
    else .internal registerFallbackMsg
  | .other => .internal registerFallbackMsg

/-- The control flow of `register`, with each awaited external result an
explicit input: the `exists(email)` answer, the outcome of `argon2.hash`,
and the outcome of the provisioning transaction. -/
def register (existsResult : Bool) (hashResult : Except HashFailure String)
    (txResult : Except PrismaError UserView) : Except RegError UserView :=
  if existsResult then .error (.conflict emailTakenMsg)
  else
    match hashResult with
    | .error f => .error (classifyHashFailure f)
    | .ok _ =>
      match txResult with
      | .ok u => .ok u
      | .error e => .error (translatePrismaError e)

/-- The body of the provisioning transaction: one nested
`tx.user.create` writing the `users` row, the `user_security` row
(`security: { create: ... }`) and the `_UserRoles` edge
(`roles: { connect: { name: 'USER' } }`), returning the created user with
`roles` included.  The database raises `P2002` on the `email` unique
constraint and `P2025` when the `USER` role to connect does not exist. -/
def txUserCreate (st : Store) (userId secId : String) (email : String)
    (firstName lastName : Option String) (hashedPassword : String) (now : Nat) :
    Except PrismaError (Store × UserView) :=
  if st.users.any (fun u => u.email == email) then
    .error (.known "P2002" (some ["email"]))
  else
    match st.roleRows.find? (fun r => r.name == "USER") with
    | none => .error (.known "P2025" none)
    | some role =>
      let row : UserRow :=
        { id := userId, email := email, emailVerified := none
          firstName := firstName, lastName := lastName, picture := none
          isActive := true, deletedAt := none, lastLogin := none
          createdAt := now, updatedAt := now }
      let sec : SecurityRow :=
        { id := secId, userId := userId, twoFactorSecret := none
          twoFactorEnabled := false, twoFactorRecoveryCodes := []
          password := some hashedPassword, passwordChangedAt := none
          updatedAt := now }
      let st2 : Store :=
        { users := row :: st.users
          securities := sec :: st.securities
          roleRows := st.roleRows
          userRoles := (userId, role.id) :: st.userRoles }
      .ok (st2, { id := row.id, email := row.email, emailVerified := row.emailVerified
                  firstName := row.firstName, lastName := row.lastName
                  picture := row.picture, isActive := row.isActive
                  deletedAt := row.deletedAt, lastLogin := row.lastLogin
                  createdAt := row.createdAt, updatedAt := row.updatedAt
                  security := none, roles := [role] })

/-- `prisma.$transaction`: commit the body's writes on success, roll every
write back on any failure. -/
def runTransaction (st : Store) (body : Store → Except PrismaError (Store × α)) :
    Store × Except PrismaError α :=
  match body st with
  | .ok (st2, a) => (st2, .ok a)
  | .error e => (st, .error e)

/-- `register` run against the store: the duplicate pre-check reads one
snapshot (`stCheck`) while the transaction runs against the store as it is
by then (`stTx`) — the two differ exactly when a concurrent registration
committed in between. -/
def registerRun (dto : String × Option String × Option String)
    (hashResult : Except HashFailure String) (stCheck stTx : Store)
    (userId secId : String) (now : Nat) :
    Store × Except RegError UserView :=
  if userExists stCheck dto.1 then (stTx, .error (.conflict emailTakenMsg))
  else
    match hashResult with
    | .error f => (stTx, .error (classifyHashFailure f))
    | .ok hashed =>
      match runTransaction stTx
          (fun s => txUserCreate s userId secId dto.1 dto.2.1 dto.2.2 hashed now) with
      | (st2, .ok u) => (st2, .ok u)
      | (st2, .error e) => (st2, .error (translatePrismaError e))

/-! ## Concrete sample data used to exercise the theorems -/

def demoRole : RoleRow := { id := "r1", name := "USER", description := none }

def demoUserRow : UserRow :=
  { id := "u1", email := "a@x.com", emailVerified := none
    firstName := some "Ana", lastName := none, picture := none
    isActive := true, deletedAt := none, lastLogin := none
    createdAt := 0, updatedAt := 0 }

def demoSec : SecurityRow :=
  { id := "s1", userId := "u1", twoFactorSecret := none
    twoFactorEnabled := false, twoFactorRecoveryCodes := []
    password := some "H", passwordChangedAt := none, updatedAt := 0 }

/-- A store holding one active registered user and the seeded USER role. -/
def demoStore : Store :=
  { users := [demoUserRow], securities := [demoSec]
    roleRows := [demoRole], userRoles := [("u1", "r1")] }

/-- Same store with the account deactivated. -/
def demoStoreInactive : Store :=
  { demoStore with users := [{ demoUserRow with isActive := false }] }

/-- A store with the role seeded but no user yet. -/
def demoStoreEmpty : Store :=
  { users := [], securities := [], roleRows := [demoRole], userRoles := [] }

/-- A concrete stand-in for `argon2.verify`: accepts exactly the stored
demo hash together with the demo password. -/
def demoVerify : String → String → String → Bool :=
  fun hash pass _ => hash == "H" && pass == "p"

/-- A concrete stand-in for `jwtService.sign`. -/
def demoSign : JwtPayload → String :=
  fun p => p.sub ++ "|" ++ p.email ++ "|" ++ String.intercalate "," p.roles

/-- The sanitized view `validateUser` produces for the demo user. -/
def demoSanitized : UserView :=
  { id := "u1", email := "a@x.com", emailVerified := none
    firstName := some "Ana", lastName := none, picture := none
    isActive := true, deletedAt := none, lastLogin := none
    createdAt := 0, updatedAt := 0, security := none, roles := [demoRole] }

/-- What `findUnique` returns for the deactivated demo user when both
relations are included. -/
def demoInactiveView : UserView :=
  { demoSanitized with isActive := false, security := some demoSec }

/-! ## Theorems -/

/-- C1: every one of the five login-failure conditions — account absent,
account inactive, no credential record, no (or empty) stored hash, hash
verification mismatch — produces the one identical caller-visible outcome
`UnauthorizedException('Credenciales inválidas')`. -/
theorem C1_invalid_credentials_uniform
    (verify : String → String → String → Bool) (pepper : String)
    (sign : JwtPayload → String) (st : Store) (email pass : String)
    (h : findUserByEmail st email true true = none ∨
      ∃ u, findUserByEmail st email true true = some u ∧
        (u.isActive = false ∨ u.security = none ∨
          (∃ sec, u.security = some sec ∧
            (sec.password = none ∨ sec.password = some "")) ∨
          (∃ sec hash, u.security = some sec ∧ sec.password = some hash ∧
            ¬hash = "" ∧ verify hash pass pepper = false))) :
    login verify pepper sign st email pass
      = .error (.unauthorized "Credenciales inválidas") := by
  unfold login validateUser validateUserT
  rcases h with h | ⟨u, hu, hcase⟩
  · rw [h]
  · rw [hu]
    rcases hcase with ha | hs | ⟨sec, hsec, hp⟩ | ⟨sec, hash, hsec, hp, hne, hv⟩
    · simp [ha]
    · cases hA : u.isActive <;> simp [hs, hA]
    · rcases hp with hp | hp <;> cases hA : u.isActive <;> simp [hsec, hp, hA]
    · cases hA : u.isActive <;> simp [hsec, hp, hA, hne, hv]

/-- C1 witness: a login against a store in which the account does not
exist produces exactly the uniform error. -/
theorem C1_witness :
    login demoVerify "pep" demoSign demoStoreEmpty "a@x.com" "p"
      = .error (.unauthorized "Credenciales inválidas") :=
  C1_invalid_credentials_uniform demoVerify "pep" demoSign demoStoreEmpty
    "a@x.com" "p" (Or.inl (by decide))

/-- C7: (i) whenever the account is absent, inactive, or lacks a
credential record or a stored hash, `argon2.verify` is never invoked
(call count 0) and the caller sees the identical uniform error; (ii) any
run that did invoke `argon2.verify` had already passed the existence,
activity, and credential checks. -/
theorem C7_checks_precede_verification
    (verify : String → String → String → Bool) (pepper : String)
    (sign : JwtPayload → String) (st : Store) (email pass : String) :
    ((findUserByEmail st email true true = none ∨
      ∃ u, findUserByEmail st email true true = some u ∧
        (u.isActive = false ∨ u.security = none ∨
          ∃ sec, u.security = some sec ∧
            (sec.password = none ∨ sec.password = some ""))) →
      validateUserT verify pepper st email pass = (none, 0) ∧
      login verify pepper sign st email pass
        = .error (.unauthorized "Credenciales inválidas")) ∧
    ((validateUserT verify pepper st email pass).2 ≠ 0 →
      ∃ u sec hash, findUserByEmail st email true true = some u ∧
        u.isActive = true ∧ u.security = some sec ∧
        sec.password = some hash ∧ ¬hash = "") := by
  constructor
  · intro h
    constructor
    · unfold validateUserT
      rcases h with h | ⟨u, hu, hcase⟩
      · rw [h]
      · rw [hu]
        rcases hcase with ha | hs | ⟨sec, hsec, hp⟩
        · simp [ha]
        · cases hA : u.isActive <;> simp [hs, hA]
        · rcases hp with hp | hp <;> cases hA : u.isActive <;> simp [hsec, hp, hA]
    · unfold login validateUser validateUserT
      rcases h with h | ⟨u, hu, hcase⟩
      · rw [h]
      · rw [hu]
        rcases hcase with ha | hs | ⟨sec, hsec, hp⟩
        · simp [ha]
        · cases hA : u.isActive <;> simp [hs, hA]
        · rcases hp with hp | hp <;> cases hA : u.isActive <;> simp [hsec, hp, hA]
  · intro hne
    unfold validateUserT at hne
    rcases hF : findUserByEmail st email true true with _ | u
    · rw [hF] at hne; simp at hne
    · rw [hF] at hne
      cases hA : u.isActive
      · simp [hA] at hne
      · simp only [hA] at hne
        rcases hS : u.security with _ | sec
        · simp [hS] at hne
        · simp only [hS] at hne
          rcases hP : sec.password with _ | hash
          · simp [hP] at hne
          · simp only [hP] at hne
            by_cases hE : hash = ""
            · simp [hE] at hne
            · exact ⟨u, sec, hash, rfl, hA, hS, hP, hE⟩

/-- C7 witness: for the deactivated demo account the verifier ran zero
times and the caller saw the uniform error. -/
theorem C7_witness :
    validateUserT demoVerify "pep" demoStoreInactive "a@x.com" "p" = (none, 0) ∧
    login demoVerify "pep" demoSign demoStoreInactive "a@x.com" "p"
      = .error (.unauthorized "Credenciales inválidas") :=
  (C7_checks_precede_verification demoVerify "pep" demoSign demoStoreInactive
    "a@x.com" "p").1
    (Or.inr ⟨demoInactiveView, by decide, Or.inl (by decide)⟩)

/-- C5: a successful login signs exactly the payload
`{ sub: user.id, email: user.email, roles: role-name strings }` — never
role objects, never the credential record — and a user holding only the
USER role gets the role list `["USER"]`. -/
theorem C5_payload_shape
    (verify : String → String → String → Bool) (pepper : String)
    (sign : JwtPayload → String) (st : Store) (email pass : String) (u : UserView)
    (h : validateUser verify pepper st email pass = some u) :
    login verify pepper sign st email pass
      = .ok { accessToken :=
                sign { sub := u.id, email := u.email, roles := u.roles.map RoleRow.name }
              user := u } ∧
    ∀ r : RoleRow, u.roles = [r] → r.name = "USER" →
      u.roles.map RoleRow.name = ["USER"] := by
  constructor
  · unfold login; rw [h]
  · intro r hr hn
    rw [hr]
    simp [hn]

/-- C5 witness: the demo user holds only the USER role, and the demo login
signs the payload `{ sub := "u1", email := "a@x.com", roles := ["USER"] }`. -/
theorem C5_witness :
    login demoVerify "pep" demoSign demoStore "a@x.com" "p"
      = .ok { accessToken :=
                demoSign { sub := demoSanitized.id, email := demoSanitized.email
                           roles := demoSanitized.roles.map RoleRow.name }
              user := demoSanitized } ∧
    ∀ r : RoleRow, demoSanitized.roles = [r] → r.name = "USER" →
      demoSanitized.roles.map RoleRow.name = ["USER"] :=
  C5_payload_shape demoVerify "pep" demoSign demoStore "a@x.com" "p" demoSanitized
    (by decide)

/-- C6: the user returned by a successful login is the stored record with
its credential relation removed and every other field intact, and neither
`findOneById` nor `findOneByEmail` ever carries a credential record in its
result. -/
theorem C6_credential_record_stripped :
    (∀ (verify : String → String → String → Bool) (pepper : String) (st : Store)
        (email pass : String) (u : UserView),
      validateUser verify pepper st email pass = some u →
        u.security = none ∧
        ∃ w, findUserByEmail st email true true = some w ∧
          u = { w with security := none }) ∧
    (∀ (st : Store) (id : String) (u : UserView),
      findOneById st id = .ok u → u.security = none) ∧
    (∀ (st : Store) (email : String) (u : UserView),
      findOneByEmail st email = .ok u → u.security = none) := by
  refine ⟨?_, ?_, ?_⟩
  · intro verify pepper st email pass u h
    unfold validateUser validateUserT at h
    rcases hF : findUserByEmail st email true true with _ | w
    · rw [hF] at h; simp at h
    · rw [hF] at h
      cases hA : w.isActive
      · simp [hA] at h
      · simp only [hA] at h
        rcases hS : w.security with _ | sec
        · simp [hS] at h
        · simp only [hS] at h
          rcases hP : sec.password with _ | hash
          · simp [hP] at h
          · simp only [hP] at h
            by_cases hE : hash = ""
            · simp [hE] at h
            · by_cases hV : verify hash pass pepper = true
              · simp [hE, hV] at h
                subst h
                exact ⟨rfl, w, rfl, rfl⟩
              · simp [hE, hV] at h
  · intro st id u h
    unfold findOneById at h
    rcases hF : findUserById st id false true with _ | w
    · rw [hF] at h; simp at h
    · rw [hF] at h
      simp at h
      subst h
      unfold findUserById at hF
      rcases hR : st.users.find? (fun r => r.id == id) with _ | row
      · rw [hR] at hF; simp at hF
      · rw [hR] at hF
        simp at hF
        rw [← hF]
        rfl
  · intro st email u h
    unfold findOneByEmail at h
    rcases hF : findUserByEmail st email false true with _ | w
    · rw [hF] at h; simp at h
    · rw [hF] at h
      simp at h
      subst h
      unfold findUserByEmail at hF
      rcases hR : st.users.find? (fun r => r.email == email) with _ | row
      · rw [hR] at hF; simp at hF
      · rw [hR] at hF
        simp at hF
        rw [← hF]
        rfl

/-- C6 witness: the demo login's returned user is the stored record with
the credential relation stripped. -/
theorem C6_witness :
    demoSanitized.security = none ∧
    ∃ w, findUserByEmail demoStore "a@x.com" true true = some w ∧
      demoSanitized = { w with security := none } :=
  C6_credential_record_stripped.1 demoVerify "pep" demoStore "a@x.com" "p"
    demoSanitized (by decide)

/-- Shape of a successful transaction body: exactly one user row, one
security row and one role edge are prepended, nothing else changes. -/
theorem txUserCreate_ok_spec (st : Store) (uid sid email : String)
    (fn ln : Option String) (hash : String) (now : Nat) (st2 : Store) (u : UserView)
    (h : txUserCreate st uid sid email fn ln hash now = .ok (st2, u)) :
    ∃ (row : UserRow) (sec : SecurityRow) (role : RoleRow),
      st2.users = row :: st.users ∧
      st2.securities = sec :: st.securities ∧
      st2.userRoles = (row.id, role.id) :: st.userRoles ∧
      st2.roleRows = st.roleRows ∧
      sec.userId = row.id ∧ sec.password = some hash ∧
      role.name = "USER" ∧ u.id = row.id ∧ u.email = email := by
  unfold txUserCreate at h
  by_cases hDup : st.users.any (fun r => r.email == email) = true
  · simp [hDup] at h
  · rw [if_neg hDup] at h
    rcases hRole : st.roleRows.find? (fun r => r.name == "USER") with _ | role
    · rw [hRole] at h; simp at h
    · rw [hRole] at h
      have hname : role.name = "USER" := by
        have := List.find?_some hRole
        simpa using this
      simp only [Except.ok.injEq, Prod.mk.injEq] at h
      obtain ⟨hst, hu⟩ := h
      subst hst
      subst hu
      refine ⟨_, _, role, rfl, rfl, rfl, rfl, rfl, rfl, hname, rfl, rfl⟩

/-- C2: the provisioning write is atomic — a committed run prepends
exactly one Identity, one Credential Record (owned by that Identity and
carrying the hash) and one USER-role edge, and a failed run leaves the
store exactly as it was. -/
theorem C2_provision_atomic (st : Store) (uid sid email : String)
    (fn ln : Option String) (hash : String) (now : Nat) :
    (∀ st2 u,
      runTransaction st (fun s => txUserCreate s uid sid email fn ln hash now)
        = (st2, .ok u) →
      ∃ (row : UserRow) (sec : SecurityRow) (role : RoleRow),
        st2.users = row :: st.users ∧
        st2.securities = sec :: st.securities ∧
        st2.userRoles = (row.id, role.id) :: st.userRoles ∧
        st2.roleRows = st.roleRows ∧
        sec.userId = row.id ∧ sec.password = some hash ∧
        role.name = "USER" ∧ u.id = row.id ∧ u.email = email) ∧
    (∀ st2 e,
      runTransaction st (fun s => txUserCreate s uid sid email fn ln hash now)
        = (st2, .error e) →
      st2 = st) := by
  constructor
  · intro st2 u h
    simp only [runTransaction] at h
    rcases hB : txUserCreate st uid sid email fn ln hash now with e2 | ⟨sta, a⟩ <;>
      rw [hB] at h
    · simp at h
    · simp only [Prod.mk.injEq, Except.ok.injEq] at h
      obtain ⟨h1, h2⟩ := h
      subst h1; subst h2
      exact txUserCreate_ok_spec st uid sid email fn ln hash now sta a hB
  · intro st2 e h
    simp only [runTransaction] at h
    rcases hB : txUserCreate st uid sid email fn ln hash now with e2 | ⟨sta, a⟩ <;>
      rw [hB] at h
    · simp only [Prod.mk.injEq] at h
      exact h.1.symm
    · simp at h

/-- C2 witness: provisioning the demo user on the seeded-but-empty store
commits exactly the three demo rows. -/
theorem C2_witness :
    ∃ (row : UserRow) (sec : SecurityRow) (role : RoleRow),
      demoStore.users = row :: demoStoreEmpty.users ∧
      demoStore.securities = sec :: demoStoreEmpty.securities ∧
      demoStore.userRoles = (row.id, role.id) :: demoStoreEmpty.userRoles ∧
      demoStore.roleRows = demoStoreEmpty.roleRows ∧
      sec.userId = row.id ∧ sec.password = some "H" ∧
      role.name = "USER" ∧ demoSanitized.id = row.id ∧
      demoSanitized.email = "a@x.com" :=
  (C2_provision_atomic demoStoreEmpty "u1" "s1" "a@x.com" (some "Ana") none "H" 0).1
    demoStore demoSanitized (by rfl)

/-- C3: when the uniqueness race fires — the pre-check saw no duplicate
but the store holds the email by transaction time — `register` surfaces
exactly the same `ConflictException` value, message included, as the
pre-check rejection does. -/
theorem C3_race_duplicate_same_outcome
    (email : String) (fn ln : Option String) (hash : String)
    (stCheck stTx : Store) (uid sid : String) (now : Nat)
    (hpre : userExists stCheck email = false)
    (hrace : stTx.users.any (fun u => u.email == email) = true) :
    (registerRun (email, fn, ln) (.ok hash) stCheck stTx uid sid now).2
      = .error (.conflict emailTakenMsg) ∧
    ∀ (st stT : Store) (hres : Except HashFailure String),
      userExists st email = true →
      (registerRun (email, fn, ln) hres st stT uid sid now).2
        = .error (.conflict emailTakenMsg) := by
  constructor
  · unfold registerRun runTransaction txUserCreate
    simp [hpre, hrace, translatePrismaError]
  · intro st stT hres hex
    unfold registerRun
    simp [hex]

/-- C3 witness: a race against the demo store yields exactly the
duplicate-identity conflict. -/
theorem C3_witness :
    (registerRun ("a@x.com", some "Ana", none) (.ok "H") demoStoreEmpty demoStore
      "u2" "s2" 1).2 = .error (.conflict emailTakenMsg) :=
  (C3_race_duplicate_same_outcome "a@x.com" (some "Ana") none "H" demoStoreEmpty
    demoStore "u2" "s2" 1 (by decide) (by decide)).1

/-- C9: a hashing failure whose `Error` message mentions memory or
allocation is surfaced as the fixed overload message, any other hashing
failure as the fixed generic security message; the caller-facing message
is always one of these two constants and never the raw diagnostics. -/
theorem C9_hash_failure_classification (f : HashFailure)
    (tx : Except PrismaError UserView) :
    ((f.isErrorInstance = true ∧
        (jsIncludes f.message "memory" = true ∨
          jsIncludes f.message "allocation" = true)) →
      register false (.error f) tx = .error (.internal overloadedMsg)) ∧
    ((f.isErrorInstance = false ∨
        (jsIncludes f.message "memory" = false ∧
          jsIncludes f.message "allocation" = false)) →
      register false (.error f) tx = .error (.internal hashGenericMsg)) ∧
    (register false (.error f) tx = .error (.internal overloadedMsg) ∨
      register false (.error f) tx = .error (.internal hashGenericMsg)) := by
  refine ⟨?_, ?_, ?_⟩
  · rintro ⟨hi, hm⟩
    unfold register classifyHashFailure
    rcases hm with hm | hm <;> simp [hi, hm]
  · intro hcase
    unfold register classifyHashFailure
    rcases hcase with hi | ⟨hm, ha⟩
    · simp [hi]
    · simp [hm, ha]
  · unfold register classifyHashFailure
    by_cases hc : (f.isErrorInstance &&
        (jsIncludes f.message "memory" || jsIncludes f.message "allocation")) = true
    · left; simp [hc]
    · right; simp [hc]

/-- C9 witness: an out-of-memory argon2 failure is surfaced as the
overload message. -/
theorem C9_witness :
    register false
      (.error { isErrorInstance := true, message := "timeout: memory exhausted" })
      (.error .other) = .error (.internal overloadedMsg) :=
  (C9_hash_failure_classification
    { isErrorInstance := true, message := "timeout: memory exhausted" }
    (.error .other)).1 ⟨rfl, Or.inl (by decide)⟩

/-- C10: a `P2002` uniqueness violation whose `meta.target` is absent or
does not name `email` is not classified as a duplicate — it falls through
to the generic internal fault. -/
theorem C10_p2002_without_email_target
    (hash : String) (ts : List String) (hts : ts.contains "email" = false) :
    register false (.ok hash) (.error (.known "P2002" (some ts)))
      = .error (.internal registerFallbackMsg) ∧
    register false (.ok hash) (.error (.known "P2002" none))
      = .error (.internal registerFallbackMsg) := by
  unfold register translatePrismaError
  have hmem : "email" ∉ ts := by simpa using hts
  constructor <;> simp [hmem]

/-- C10 witness: a `P2002` on a non-email constraint yields the generic
internal fault. -/
theorem C10_witness :
    register false (.ok "H") (.error (.known "P2002" (some ["id"])))
      = .error (.internal registerFallbackMsg) :=
  (C10_p2002_without_email_target "H" ["id"] (by decide)).1

/-- C4 counterexample: a successful login — the demo credentials are
accepted and a token is issued — leaves the store, and in particular the
Identity's `lastLogin` column, exactly as it was: `login` contains no
write, so it does not mutate the last-login timestamp. -/
theorem C4_counterexample :
    (loginS demoVerify "pep" demoSign demoStore "a@x.com" "p").2
      = .ok { accessToken := demoSign { sub := "u1", email := "a@x.com", roles := ["USER"] }
              user := demoSanitized } ∧
    (loginS demoVerify "pep" demoSign demoStore "a@x.com" "p").1 = demoStore ∧
    demoUserRow.lastLogin = none ∧
    (loginS demoVerify "pep" demoSign demoStore "a@x.com" "p").1.users.map
      UserRow.lastLogin = [none] :=
  ⟨rfl, rfl, rfl, rfl⟩

/-- C4 amended: login performs no write at all to the Identity (the
last-login column included); registration only prepends a new Identity,
leaving every existing row untouched; and profile-update — the sole
Identity mutator of this core — rewrites only the targeted row. -/
theorem C4_identity_mutation_frame :
    (∀ (verify : String → String → String → Bool) (pepper : String)
        (sign : JwtPayload → String) (st : Store) (email pass : String),
      (loginS verify pepper sign st email pass).1 = st) ∧
    (∀ (dto : String × Option String × Option String)
        (hres : Except HashFailure String) (stC stT : Store)
        (uid sid : String) (now : Nat) (u : UserRow),
      u ∈ stT.users → u ∈ (registerRun dto hres stC stT uid sid now).1.users) ∧
    (∀ (st : Store) (id : String) (dto : UpdateUserDto) (now : Nat) (u : UserRow),
      u ∈ st.users → u.id ≠ id → u ∈ (updateProfile st id dto now).1.users) := by
  refine ⟨?_, ?_, ?_⟩
  · intro verify pepper sign st email pass
    rfl
  · intro dto hres stC stT uid sid now u hu
    unfold registerRun
    by_cases hex : userExists stC dto.1 = true
    · simp only [hex, if_true]
      exact hu
    · simp only [Bool.not_eq_true] at hex
      simp only [hex, Bool.false_eq_true, if_false]
      cases hres with
      | error f => exact hu
      | ok hashed =>
        rcases hB : txUserCreate stT uid sid dto.1 dto.2.1 dto.2.2 hashed now
            with e | ⟨st2, v⟩
        · simp [runTransaction, hB]
          exact hu
        · obtain ⟨row, sec, role, husers, -, -, -, -, -, -, -, -⟩ :=
            txUserCreate_ok_spec stT uid sid dto.1 dto.2.1 dto.2.2 hashed now st2 v hB
          simp [runTransaction, hB, husers, List.mem_cons]
          exact Or.inr hu
  · intro st id dto now u hu hne
    unfold updateProfile
    rcases hR : st.users.find? (fun r => r.id == id) with _ | row <;> rw [hR]
    · exact hu
    · have hfix : (fun r : UserRow => if r.id == id then applyUpdate dto now r else r) u
          = u := by simp [hne]
      exact hfix ▸ List.mem_map_of_mem _ hu

/-- C4 amended witness: an unrelated profile update leaves the demo
Identity row in place and untouched. -/
theorem C4_witness :
    demoUserRow ∈ (updateProfile demoStore "zzz"
      { firstName := some "Bob", lastName := none, picture := none } 5).1.users :=
  C4_identity_mutation_frame.2.2 demoStore "zzz"
    { firstName := some "Bob", lastName := none, picture := none } 5 demoUserRow
    (by decide) (by decide)

/-- `(?=.*X)` under `.*` sees exactly the whole suffix when no line
terminator occurs in it. -/
theorem lookaheadDotStar_eq_any (p : Char → Bool) (t : List Char)
    (h : t.all (fun c => !lineTerm c) = true) :
    lookaheadDotStar p t = t.any p := by
  induction t with
  | nil => rfl
  | cons c cs ih =>
    simp only [List.all_cons, Bool.and_eq_true] at h
    unfold lookaheadDotStar
    rw [h.1, ih h.2, List.any_cons]
    simp

/-- `.*$` always succeeds on a line-terminator-free suffix. -/
theorem dollarTail_of_noLineTerm (t : List Char)
    (h : t.all (fun c => !lineTerm c) = true) : dollarTail t = true := by
  induction t with
  | nil => rfl
  | cons c cs ih =>
    simp only [List.all_cons, Bool.and_eq_true] at h
    unfold dollarTail
    rw [h.1, ih h.2]
    rfl

/-- `any` distributes over a pointwise disjunction. -/
theorem any_or_split (p q : Char → Bool) (t : List Char) :
    t.any (fun c => p c || q c) = (t.any p || t.any q) := by
  induction t with
  | nil => rfl
  | cons c cs ih =>
    simp only [List.any_cons, ih]
    cases p c <;> cases q c <;> simp

/-- On a line-terminator-free suffix the anchored pattern holds exactly
when the first character is not a dot and the three character classes all
occur in the suffix. -/
theorem matchAt_true_iff (t : List Char)
    (h : t.all (fun c => !lineTerm c) = true) :
    matchAt t = true ↔ (notDotNl t = true ∧ suffixHasAll t = true) := by
  unfold matchAt suffixHasAll seesDigit seesNonWord seesUpper seesLower
  rw [lookaheadDotStar_eq_any digitChar t h,
    lookaheadDotStar_eq_any (fun c => !wordChar c) t h,
    lookaheadDotStar_eq_any upperChar t h,
    lookaheadDotStar_eq_any lowerChar t h,
    dollarTail_of_noLineTerm t h,
    ← any_or_split digitChar (fun c => !wordChar c) t]
  simp only [Bool.and_eq_true, Bool.and_true]
  tauto

/-- The searching regex, on line-terminator-free input, accepts exactly the
strings having a suffix that starts with a non-dot character and contains
all three required character classes. -/
theorem regexSearch_true_iff (t : List Char)
    (h : t.all (fun c => !lineTerm c) = true) :
    regexSearch t = true ↔
      ∃ pre rest, t = pre ++ rest ∧ notDotNl rest = true ∧
        suffixHasAll rest = true := by
  induction t with
  | nil =>
    constructor
    · intro hx
      exact absurd hx (by decide)
    · rintro ⟨pre, rest, hsplit, hdot, hall⟩
      obtain ⟨hpre, hrest⟩ := List.append_eq_nil.mp hsplit.symm
      subst hrest
      exact absurd hall (by decide)
  | cons c cs ih =>
    have hc : cs.all (fun c => !lineTerm c) = true := by
      simp only [List.all_cons, Bool.and_eq_true] at h
      exact h.2
    unfold regexSearch
    rw [Bool.or_eq_true, matchAt_true_iff (c :: cs) h, ih hc]
    constructor
    · rintro (⟨hdot, hall⟩ | ⟨pre, rest, hsplit, hdot, hall⟩)
      · exact ⟨[], c :: cs, rfl, hdot, hall⟩
      · exact ⟨c :: pre, rest, by rw [hsplit]; rfl, hdot, hall⟩
    · rintro ⟨pre, rest, hsplit, hdot, hall⟩
      cases pre with
      | nil =>
        left
        simp only [List.nil_append] at hsplit
        rw [hsplit]
        exact ⟨hdot, hall⟩
      | cons d pre2 =>
        right
        rw [List.cons_append] at hsplit
        injection hsplit with h1 h2
        exact ⟨pre2, rest, h2, hdot, hall⟩

/-- C8 counterexample: `".Abcdefg"` has 8 characters, an uppercase letter,
lowercase letters and a non-alphanumeric symbol, so the claimed policy
accepts it — but the DTO regex rejects it. -/
theorem C8_counterexample :
    specStrengthPolicy ".Abcdefg" = true ∧
    registerPasswordOk ".Abcdefg" = false := by decide

/-- C8 amended: for passwords free of line terminators, the DTO accepts
exactly the strings of length 8–64 that have a suffix starting with a
non-dot character in which an uppercase letter, a lowercase letter, and a
digit-or-non-word character (underscore counting as a word character) all
occur. -/
theorem C8_strength_policy_amended (s : String)
    (h : s.data.all (fun c => !lineTerm c) = true) :
    registerPasswordOk s = true ↔
      8 ≤ s.length ∧ s.length ≤ 64 ∧
        ∃ pre rest, s.data = pre ++ rest ∧ notDotNl rest = true ∧
          suffixHasAll rest = true := by
  unfold registerPasswordOk
  rw [Bool.and_eq_true, Bool.and_eq_true, regexSearch_true_iff s.data h]
  simp only [decide_eq_true_eq, and_assoc]

/-- C8 witness: the scenario password `"Abcdef1!"` is accepted and indeed
has such a suffix (the whole string). -/
theorem C8_witness :
    registerPasswordOk "Abcdef1!" = true ↔
      8 ≤ "Abcdef1!".length ∧ "Abcdef1!".length ≤ 64 ∧
        ∃ pre rest, "Abcdef1!".data = pre ++ rest ∧ notDotNl rest = true ∧
          suffixHasAll rest = true :=
  C8_strength_policy_amended "Abcdef1!" (by decide)
